import Mathlib

/-
  Shallow embedding of src/fate_arch/data_table/base.py (FATE), metadata
  path of the Table abstraction: get_schema, save_schema, destroy_schema
  over the MachineLearningDataSchema catalog store.
-/

namespace FateArch

/-- Python exception kinds raised by the metadata code paths of
src/fate_arch/data_table/base.py.  `exception` models a plain
`Exception(msg)`, `attributeError` an `AttributeError`, `nameError` a
`NameError`, and `unpicklingError` the decoding failure raised by
`deserialize_b64` on bytes that are not a valid pickle payload. -/
inductive PyError where
  | exception (msg : String)
  | attributeError (msg : String)
  | nameError (msg : String)
  | unpicklingError
deriving DecidableEq

/-- A serialized blob as stored in the catalog columns `f_schema` and
`f_part_of_data`.  `serialize_b64` in the source is base64-of-pickle: an
opaque injective codec.  `enc v` is the well-formed encoding of `v`,
`empty` is falsy bytes (None or an empty byte string), and `corrupt` is a
non-empty blob that fails to decode. -/
inductive Blob (α : Type) where
  | empty
  | enc (v : α)
  | corrupt
deriving DecidableEq

/-- Model of `serialize_b64` from arch.api.utils.core_utils: the opaque
codec applied before storing a value in the catalog. -/
def serialize_b64 {α : Type} (v : α) : Blob α := Blob.enc v

/-- Model of `deserialize_b64`: inverts `serialize_b64` on well-formed
blobs and raises on anything else (empty bytes or corrupt payloads both
raise in the source, since neither is a valid pickle). -/
def deserialize_b64 {α : Type} : Blob α → Except PyError α
  | Blob.enc v => Except.ok v
  | Blob.empty => Except.error PyError.unpicklingError
  | Blob.corrupt => Except.error PyError.unpicklingError

/-- Python truthiness of a stored blob, as tested by
`if schema.f_schema:` on line 167 of base.py: falsy bytes are falsy,
any non-empty byte string (valid or corrupt) is truthy. -/
def blobTruthy {α : Type} : Blob α → Bool
  | Blob.empty => false
  | _ => true

/-- One row of the catalog store (fate_flow.db.db_models
.MachineLearningDataSchema), keyed by (f_table_name, f_namespace).
Schema blobs decode to string-keyed dictionaries (association lists with
dict update semantics) and sample blobs decode to lists of records,
modelled as strings. -/
structure MachineLearningDataSchema where
  f_table_name : String
  f_namespace : String
  f_schema : Blob (List (String × String))
  f_part_of_data : Blob (List String)
  f_count : Int
  f_update_time : Int
deriving DecidableEq

/-- Model of `MachineLearningDataSchema.select().where(f_table_name ==
name, f_namespace == namespace)` followed by taking element 0: the first
row of the catalog matching the key, if any.  The catalog is modelled as
the list of its rows. -/
def selectEntry (db : List MachineLearningDataSchema) (name ns : String) :
    Option MachineLearningDataSchema :=
  db.find? fun e => e.f_table_name == name && e.f_namespace == ns

/-- The value returned by `Table.get_schema`: a decoded schema dict, a
decoded sample list, the raw count integer, or Python None (produced when
decoding fails inside the try block). -/
inductive SchemaResult where
  | dict (d : List (String × String))
  | list (l : List String)
  | int (n : Int)
  | pyNone
deriving DecidableEq

/-- Model of `Table.get_schema` (base.py lines 137-153).  `schema_data`
starts as the empty dict; if a row exists, the requested column is
decoded inside a try block whose except clause sets `schema_data = None`;
an unrecognized `_type` leaves the empty dict in place.  The function is
total: no branch propagates an error. -/
def get_schema (db : List MachineLearningDataSchema) (name ns _type : String) :
    SchemaResult :=
  match selectEntry db name ns with
  | none => SchemaResult.dict []
  | some schema =>
    if _type = "schema" then
      match deserialize_b64 schema.f_schema with
      | Except.ok d => SchemaResult.dict d
      | Except.error _ => SchemaResult.pyNone
    else if _type = "data" then
      match deserialize_b64 schema.f_part_of_data with
      | Except.ok l => SchemaResult.list l
      | Except.error _ => SchemaResult.pyNone
    else if _type = "count" then
      SchemaResult.int schema.f_count
    else
      SchemaResult.dict []

/-- Model of `Table.save_schema` (base.py lines 155-183).  The falsy-arg
normalization on lines 157-160 replaces a falsy dict/list by an empty
one, which is the identity on our representations.  When no row matches,
line 181 raises `Exception("please create table ...")` (the source
formats the namespace twice, a slip in the message itself).  When a row
matches, line 167 binds the local `_schema_data` only when `f_schema` is
truthy and decodes, and line 168/169 then evaluates
`_schema_data.updata(schema_data)`: Python dicts have no attribute
`updata` (a typo for `update`), so this raises AttributeError whenever
the blob decoded to a dict, NameError when `f_schema` was falsy (the
local was never bound), and the decoding error itself when the blob is
corrupt.  Every path out of the function on an existing row is therefore
an exception raised before any assignment to the row and before
`schema.save(...)` on line 183, so lines 170-183 (schema overlay, sample
merge, count increment, update-time stamp, commit) are dead code and the
catalog state is never modified. -/
def save_schema (db : List MachineLearningDataSchema) (name ns : String)
    (schema_data : List (String × String)) (party_of_data : List String)
    (count : Int) : Except PyError (List MachineLearningDataSchema) :=
  match selectEntry db name ns with
  | some schema =>
    if blobTruthy schema.f_schema then
      match deserialize_b64 schema.f_schema with
      | Except.ok _ =>
        Except.error (PyError.attributeError "dict object has no attribute updata")
      | Except.error e => Except.error e
    else
      Except.error (PyError.nameError "name _schema_data is not defined")
  | none =>
    Except.error (PyError.exception
      ("please create table " ++ ns ++ " " ++ ns ++ " before useing"))

/-- The body of the try block of `Table.destroy_schema` (base.py lines
187-189): delete every catalog row matching the key.  The underlying
store may itself fail; that possibility is modelled by the `dbFails`
oracle, in which case the delete raises and no row is removed. -/
def destroy_schema_attempt (db : List MachineLearningDataSchema)
    (name ns : String) (dbFails : Bool) :
    Except PyError (List MachineLearningDataSchema) :=
  if dbFails then
    Except.error (PyError.exception "database error")
  else
    Except.ok (db.filter fun e => !(e.f_table_name == name && e.f_namespace == ns))

/-- Model of `Table.destroy_schema` (base.py lines 185-191): the delete
runs inside a try whose except clause logs through stat_logger and
returns normally, so a store failure leaves the catalog unchanged and no
error reaches the caller (the return type carries no error case). -/
def destroy_schema (db : List MachineLearningDataSchema) (name ns : String)
    (dbFails : Bool) : List MachineLearningDataSchema :=
  match destroy_schema_attempt db name ns dbFails with
  | Except.ok db2 => db2
  | Except.error _ => db

/-- Arguments of one `save_schema` call, used to state properties of
sequences of calls. -/
structure SaveCall where
  name : String
  ns : String
  schema_data : List (String × String)
  party_of_data : List String
  count : Int

/-- The catalog state visible after a `save_schema` call: the new state
on success, the unchanged state when the call raises (the exception
propagates to the caller, but nothing was committed). -/
def runSave (db : List MachineLearningDataSchema) (c : SaveCall) :
    List MachineLearningDataSchema :=
  match save_schema db c.name c.ns c.schema_data c.party_of_data c.count with
  | Except.ok db2 => db2
  | Except.error _ => db

/-- The catalog state after a sequence of `save_schema` calls. -/
def runSaves (db : List MachineLearningDataSchema) (cs : List SaveCall) :
    List MachineLearningDataSchema :=
  cs.foldl runSave db

/-- Number of sample records a stored `f_part_of_data` blob decodes to
(0 for empty or corrupt blobs, which decode to no data). -/
def sampleLength : Blob (List String) → Nat
  | Blob.enc l => l.length
  | _ => 0

/-- Decidable form of the sample cap: every row of the catalog stores at
most 200 sample records. -/
def sampleBounded (db : List MachineLearningDataSchema) : Bool :=
  db.all fun e => decide (sampleLength e.f_part_of_data ≤ 200)

/-- A concrete catalog row used to evaluate the model: schema decodes to
the one-pair dict a maps-to 1, sample decodes to the one-record list, and
the stored count is 10. -/
def entry0 : MachineLearningDataSchema :=
  { f_table_name := "t1", f_namespace := "ns1"
    f_schema := Blob.enc [("a", "1")]
    f_part_of_data := Blob.enc ["r1"]
    f_count := 10, f_update_time := 0 }

/-- A catalog row whose two blobs are both undecodable. -/
def entryCorrupt : MachineLearningDataSchema :=
  { f_table_name := "t1", f_namespace := "ns1"
    f_schema := Blob.corrupt
    f_part_of_data := Blob.corrupt
    f_count := 0, f_update_time := 0 }

/-- A save_schema call with all-default (falsy) arguments. -/
def defaultCall : SaveCall :=
  { name := "t1", ns := "ns1", schema_data := [], party_of_data := [], count := 0 }

/-- A save_schema call supplying 300 sample records. -/
def bigCall : SaveCall :=
  { name := "t1", ns := "ns1", schema_data := []
    party_of_data := List.replicate 300 "x", count := 0 }

/-- A save_schema call with count 5 and a call with count 3, as in the
additivity property of the spec. -/
def count5Call : SaveCall :=
  { name := "t1", ns := "ns1", schema_data := [], party_of_data := [], count := 5 }

/-- Companion of count5Call. -/
def count3Call : SaveCall :=
  { name := "t1", ns := "ns1", schema_data := [], party_of_data := [], count := 3 }

/- Helper lemmas shared by several results. -/

/-- save_schema raises on every input: on a missing row it raises the
please-create-table exception, and on an existing row the
`_schema_data.updata(...)` call on line 169 raises before anything is
stored. -/
theorem save_schema_never_ok (db : List MachineLearningDataSchema)
    (name ns : String) (schema_data : List (String × String))
    (party_of_data : List String) (count : Int) :
    ∃ err, save_schema db name ns schema_data party_of_data count
      = Except.error err := by
  unfold save_schema
  cases selectEntry db name ns with
  | none => exact ⟨_, rfl⟩
  | some schema =>
    cases h : schema.f_schema with
    | empty =>
      refine ⟨PyError.nameError "name _schema_data is not defined", ?_⟩
      simp [h, blobTruthy]
    | enc v =>
      refine ⟨PyError.attributeError "dict object has no attribute updata", ?_⟩
      simp [h, blobTruthy, deserialize_b64]
    | corrupt =>
      refine ⟨PyError.unpicklingError, ?_⟩
      simp [h, blobTruthy, deserialize_b64]

/-- A save_schema call never changes the stored catalog state. -/
theorem runSave_eq (db : List MachineLearningDataSchema) (c : SaveCall) :
    runSave db c = db := by
  obtain ⟨err, h⟩ :=
    save_schema_never_ok db c.name c.ns c.schema_data c.party_of_data c.count
  unfold runSave
  rw [h]

/-- A sequence of save_schema calls never changes the stored catalog
state. -/
theorem runSaves_eq (db : List MachineLearningDataSchema)
    (cs : List SaveCall) : runSaves db cs = db := by
  induction cs generalizing db with
  | nil => rfl
  | cons c cs ih =>
    unfold runSaves
    rw [List.foldl_cons, runSave_eq]
    exact ih db

/-- Searching with a predicate in a list from which every match of that
predicate was filtered out finds nothing. -/
theorem find?_filter_not {α : Type} (p : α → Bool) (l : List α) :
    (l.filter fun a => !(p a)).find? p = none := by
  induction l with
  | nil => rfl
  | cons x xs ih =>
    cases h : p x with
    | true => simpa [List.filter_cons, h] using ih
    | false => simpa [List.filter_cons, List.find?, h] using ih

/- Claim results. -/

/-- Claim C1.  The claim states that save_schema on an existing catalog
row overlays the supplied pairs onto the decoded stored schema and that a
subsequent get_schema returns a mapping containing every supplied pair.
On the code this is false: line 169 of base.py calls
`_schema_data.updata(schema_data)` and a dict has no attribute `updata`
(a typo for `update`), so the call raises AttributeError before anything
is stored, and get_schema afterwards still returns the old dict, which
does not contain the supplied pair (k, v). -/
theorem save_schema_updata_attribute_error :
    save_schema [entry0] "t1" "ns1" [("k", "v")] [] 0
      = Except.error (PyError.attributeError "dict object has no attribute updata")
    ∧ get_schema
        (runSave [entry0]
          { name := "t1", ns := "ns1", schema_data := [("k", "v")]
            party_of_data := [], count := 0 })
        "t1" "ns1" "schema"
      = SchemaResult.dict [("a", "1")] :=
  ⟨rfl, rfl⟩

/-- Claim C2.  The claim states that a save_schema call on an existing
row whose stored sample has fewer than 200 entries appends the supplied
records to the decoded existing list and stores the merged list.  On the
code this is false: the AttributeError from the `updata` typo on line 169
is raised before the sample lines are reached, so the stored sample stays
the old one-record list instead of becoming a two-record merge (and the
sample lines themselves, were they reachable, append the slice as a
single nested element to a local that is then discarded, and store the
first 200 supplied records, not the merge). -/
theorem save_schema_sample_never_merged :
    save_schema [entry0] "t1" "ns1" [] ["s1"] 0
      = Except.error (PyError.attributeError "dict object has no attribute updata")
    ∧ get_schema
        (runSave [entry0]
          { name := "t1", ns := "ns1", schema_data := []
            party_of_data := ["s1"], count := 0 })
        "t1" "ns1" "data"
      = SchemaResult.list ["r1"] :=
  ⟨rfl, rfl⟩

/-- Claim C3.  The claim states that the stored count is cumulative, so
that save_schema with count 5 and then count 3 on a row storing count 10
leaves the stored count at 18.  On the code this is false: both calls
raise the AttributeError from the `updata` typo on line 169 before the
`schema.f_count += count` line is reached, so the stored count stays
10. -/
theorem save_schema_count_not_additive :
    save_schema [entry0] "t1" "ns1" [] [] 5
      = Except.error (PyError.attributeError "dict object has no attribute updata")
    ∧ get_schema (runSaves [entry0] [count5Call, count3Call]) "t1" "ns1" "count"
      = SchemaResult.int 10 :=
  ⟨rfl, rfl⟩

/-- Claim C4.  For every catalog whose rows all store at most 200 sample
records, after any sequence of save_schema calls every row still stores
at most 200 sample records.  This holds on the code, degenerately:
every save_schema call raises before committing anything (line 169,
see save_schema_never_ok), so the stored state never changes at all. -/
theorem sample_of_data_cap_invariant (db : List MachineLearningDataSchema)
    (cs : List SaveCall) (hb : sampleBounded db = true) :
    sampleBounded (runSaves db cs) = true := by
  rw [runSaves_eq]
  exact hb

/-- Witness for sample_of_data_cap_invariant: a one-row catalog under the
cap, hit with a call supplying 300 sample records. -/
theorem sample_of_data_cap_invariant_witness :
    sampleBounded [entry0] = true
    ∧ sampleBounded (runSaves [entry0] [bigCall]) = true :=
  ⟨by decide, sample_of_data_cap_invariant [entry0] [bigCall] (by decide)⟩

/-- Claim C5.  When no catalog row exists for (name, namespace),
save_schema fails with the exception raised on line 181 of base.py (the
catalog-entry-missing error; the message there formats the namespace
twice) and returns no new state, so it never creates the row itself. -/
theorem save_schema_missing_entry_error (db : List MachineLearningDataSchema)
    (name ns : String) (schema_data : List (String × String))
    (party_of_data : List String) (count : Int)
    (h : selectEntry db name ns = none) :
    save_schema db name ns schema_data party_of_data count
      = Except.error (PyError.exception
          ("please create table " ++ ns ++ " " ++ ns ++ " before useing")) := by
  unfold save_schema
  rw [h]

/-- Witness for save_schema_missing_entry_error on the empty catalog. -/
theorem save_schema_missing_entry_error_witness :
    selectEntry [] "t1" "ns1" = none
    ∧ save_schema [] "t1" "ns1" [("k", "v")] ["s1"] 7
      = Except.error (PyError.exception
          ("please create table " ++ "ns1" ++ " " ++ "ns1" ++ " before useing")) :=
  ⟨rfl, save_schema_missing_entry_error [] "t1" "ns1" [("k", "v")] ["s1"] 7 rfl⟩

/-- Claim C6.  When no catalog row exists for (name, namespace),
get_schema returns the empty dict for every requested kind, and it never
raises (the model is a total function into SchemaResult, mirroring that
every branch of lines 137-153 returns normally). -/
theorem get_schema_missing_entry_empty (db : List MachineLearningDataSchema)
    (name ns _type : String) (h : selectEntry db name ns = none) :
    get_schema db name ns _type = SchemaResult.dict [] := by
  unfold get_schema
  rw [h]

/-- Witness for get_schema_missing_entry_empty on the empty catalog. -/
theorem get_schema_missing_entry_empty_witness :
    selectEntry [] "t1" "ns1" = none
    ∧ get_schema [] "t1" "ns1" "schema" = SchemaResult.dict [] :=
  ⟨rfl, get_schema_missing_entry_empty [] "t1" "ns1" "schema" rfl⟩

/-- Claim C7.  When the catalog row exists but the requested blob fails
to decode, get_schema catches the failure (the bare except on line 151)
and returns Python None, the no-data default, instead of propagating the
error. -/
theorem get_schema_decode_failure_swallowed
    (db : List MachineLearningDataSchema) (name ns : String)
    (e : MachineLearningDataSchema) (err1 err2 : PyError)
    (hsel : selectEntry db name ns = some e)
    (hs : deserialize_b64 e.f_schema = Except.error err1)
    (hd : deserialize_b64 e.f_part_of_data = Except.error err2) :
    get_schema db name ns "schema" = SchemaResult.pyNone
    ∧ get_schema db name ns "data" = SchemaResult.pyNone := by
  constructor <;> simp [get_schema, hsel, hs, hd]

/-- Witness for get_schema_decode_failure_swallowed on a catalog whose
single row has two corrupt blobs. -/
theorem get_schema_decode_failure_swallowed_witness :
    selectEntry [entryCorrupt] "t1" "ns1" = some entryCorrupt
    ∧ get_schema [entryCorrupt] "t1" "ns1" "schema" = SchemaResult.pyNone :=
  ⟨rfl, (get_schema_decode_failure_swallowed [entryCorrupt] "t1" "ns1"
      entryCorrupt PyError.unpicklingError PyError.unpicklingError
      rfl rfl rfl).1⟩

/-- Claim C8.  The claim states that every successful save_schema call on
an existing row stamps f_update_time with the current time, even with
all-default arguments.  On the code this is false: with all-default
arguments the call still raises the AttributeError from the `updata` typo
on line 169, before the f_update_time assignment on line 182, so no call
on an existing row ever succeeds and the stored f_update_time stays at
its old value (0 here). -/
theorem save_schema_update_time_not_set :
    save_schema [entry0] "t1" "ns1" [] [] 0
      = Except.error (PyError.attributeError "dict object has no attribute updata")
    ∧ (runSave [entry0] defaultCall).map MachineLearningDataSchema.f_update_time
      = [0] :=
  ⟨rfl, rfl⟩

/-- Claim C9.  destroy_schema deletes the catalog row for
(name, namespace) when the store-level delete goes through, and a
store-level failure is caught and swallowed, leaving the catalog
unchanged; in both cases the function returns normally (its type carries
no error case), so no error ever reaches the caller. -/
theorem destroy_schema_spec (db : List MachineLearningDataSchema)
    (name ns : String) (fail : Bool) :
    (fail = false → selectEntry (destroy_schema db name ns fail) name ns = none)
    ∧ (fail = true → destroy_schema db name ns fail = db) := by
  constructor
  · intro h
    subst h
    unfold destroy_schema destroy_schema_attempt selectEntry
    simp only [Bool.false_eq_true, if_false]
    exact find?_filter_not _ db
  · intro h
    subst h
    rfl

/-- Witness for destroy_schema_spec: deleting the one row of a one-row
catalog with the store cooperating leaves no matching row. -/
theorem destroy_schema_spec_witness :
    (false = false)
    ∧ selectEntry (destroy_schema [entry0] "t1" "ns1" false) "t1" "ns1" = none :=
  ⟨rfl, (destroy_schema_spec [entry0] "t1" "ns1" false).1 rfl⟩

/-- Claim C10.  Frame property of save_schema: a call supplying no sample
records leaves every stored f_part_of_data blob unchanged, and a call
with count 0 leaves every stored f_count unchanged.  This holds on the
code, degenerately: every save_schema call raises before committing
anything (line 169, see save_schema_never_ok), so no stored field is
ever modified, whatever the arguments. -/
theorem save_schema_frame (db : List MachineLearningDataSchema)
    (c : SaveCall) :
    (c.party_of_data = [] →
      (runSave db c).map MachineLearningDataSchema.f_part_of_data
        = db.map MachineLearningDataSchema.f_part_of_data)
    ∧ (c.count = 0 →
      (runSave db c).map MachineLearningDataSchema.f_count
        = db.map MachineLearningDataSchema.f_count) := by
  rw [runSave_eq]
  exact ⟨fun _ => rfl, fun _ => rfl⟩

/-- Witness for save_schema_frame: the all-default call on a one-row
catalog leaves the stored sample blob untouched. -/
theorem save_schema_frame_witness :
    defaultCall.party_of_data = []
    ∧ (runSave [entry0] defaultCall).map MachineLearningDataSchema.f_part_of_data
      = [entry0].map MachineLearningDataSchema.f_part_of_data :=
  ⟨rfl, (save_schema_frame [entry0] defaultCall).1 rfl⟩

end FateArch
